import Mathlib

/-!
Verification of the Pico y Placa Pasto core: the restriction-calendar
resolver (`Reglas/pico_placa_pasto_2026.py`), the ledger layer
(`db/db.py`), and the sighting orchestrators
(`detector/live_camera.py`, `detector/process_video.py`),
shallowly embedded in Lean 4.
-/

namespace PicoPlaca

/-- Calendar date, mirroring Python `datetime.date`. -/
structure Fecha where
  year : Nat
  month : Nat
  day : Nat
deriving DecidableEq, Repr

/-- Time of day, mirroring Python `datetime.time` (microseconds omitted;
all times in the program are second-granular). -/
structure Hora where
  hour : Nat
  minute : Nat
  second : Nat
deriving DecidableEq, Repr

/-- Seconds since midnight; Python compares `time` values lexicographically
on (hour, minute, second), which coincides with this count. -/
def Hora.toSeconds (t : Hora) : Nat :=
  t.hour * 3600 + t.minute * 60 + t.second

/-- Mirror of Python `datetime.datetime` (date + time of day). -/
structure FechaHora where
  date : Fecha
  time : Hora
deriving DecidableEq, Repr

/-- Days from 1970-01-01 (proleptic Gregorian civil calendar), the standard
days-from-civil computation.  Used both for weekday (`strftime "%A"`)
and for `datetime` subtraction. -/
def Fecha.toDays (d : Fecha) : Int :=
  let y : Int := if d.month ≤ 2 then (d.year : Int) - 1 else (d.year : Int)
  let era : Int := (if 0 ≤ y then y else y - 399) / 400
  let yoe : Int := y - era * 400
  let mp : Int := ((d.month : Int) + 9) % 12
  let doy : Int := (153 * mp + 2) / 5 + (d.day : Int) - 1
  let doe : Int := yoe * 365 + yoe / 4 - yoe / 100 + doy
  era * 146097 + doe - 719468

/-- Absolute timestamp in seconds, for `datetime` subtraction
(`ts - last_t > timedelta(seconds=...)`). -/
def FechaHora.toSeconds (dt : FechaHora) : Int :=
  dt.date.toDays * 86400 + (dt.time.toSeconds : Int)

inductive Weekday
  | monday | tuesday | wednesday | thursday | friday | saturday | sunday
deriving DecidableEq, Repr

/-- Day of week of a civil date: 1970-01-01 was a Thursday.
Models Python `fecha.strftime("%A")`. -/
def diaSemana (d : Fecha) : Weekday :=
  match (d.toDays + 3) % 7 with
  | 0 => .monday
  | 1 => .tuesday
  | 2 => .wednesday
  | 3 => .thursday
  | 4 => .friday
  | 5 => .saturday
  | _ => .sunday

/-- `DIA_MAP`: English weekday name (from `strftime("%A").upper()`) to the
Spanish key used by the rule tables. -/
def DIA_MAP : Weekday → String
  | .monday => "LUNES"
  | .tuesday => "MARTES"
  | .wednesday => "MIERCOLES"
  | .thursday => "JUEVES"
  | .friday => "VIERNES"
  | .saturday => "SABADO"
  | .sunday => "DOMINGO"

/-- `HORARIO_INICIO = time(7, 30)` -/
def HORARIO_INICIO : Hora := ⟨7, 30, 0⟩

/-- `HORARIO_FIN = time(19, 0)` -/
def HORARIO_FIN : Hora := ⟨19, 0, 0⟩

/-- `RESTRICCIONES`: weekday-default restricted last digits. -/
def RESTRICCIONES : List (String × List Nat) :=
  [("LUNES", [0, 1]), ("MARTES", [2, 3]), ("MIERCOLES", [4, 5]),
   ("JUEVES", [6, 7]), ("VIERNES", [8, 9])]

/-- `RESTRICCIONES.get(dia_es, [])` -/
def RESTRICCIONES_get (dia : String) : List Nat :=
  ((RESTRICCIONES.find? (fun e => e.1 = dia)).map (fun e => e.2)).getD []

/-- `FESTIVOS_2025`: the 2025 national holiday set. -/
def FESTIVOS_2025 : List Fecha :=
  [⟨2025, 1, 1⟩, ⟨2025, 1, 6⟩, ⟨2025, 3, 24⟩, ⟨2025, 4, 17⟩,
   ⟨2025, 4, 18⟩, ⟨2025, 5, 1⟩, ⟨2025, 6, 2⟩, ⟨2025, 6, 23⟩,
   ⟨2025, 6, 30⟩, ⟨2025, 7, 20⟩, ⟨2025, 8, 7⟩, ⟨2025, 8, 18⟩,
   ⟨2025, 10, 13⟩, ⟨2025, 11, 3⟩, ⟨2025, 11, 17⟩, ⟨2025, 12, 8⟩,
   ⟨2025, 12, 25⟩]

/-- `CALENDARIO_PICO_PLACA_2025`: the explicit date-level override map
(November-December 2025). -/
def CALENDARIO_PICO_PLACA_2025 : List (Fecha × List Nat) :=
  [(⟨2025, 11, 18⟩, [2, 3]), (⟨2025, 11, 19⟩, [4, 5]),
   (⟨2025, 11, 20⟩, [6, 7]), (⟨2025, 11, 21⟩, [8, 9]),
   (⟨2025, 11, 24⟩, [2, 3]), (⟨2025, 11, 25⟩, [4, 5]),
   (⟨2025, 11, 26⟩, [6, 7]), (⟨2025, 11, 27⟩, [8, 9]),
   (⟨2025, 11, 28⟩, [0, 1]),
   (⟨2025, 12, 1⟩, [4, 5]), (⟨2025, 12, 2⟩, [6, 7]),
   (⟨2025, 12, 3⟩, [8, 9]), (⟨2025, 12, 4⟩, [0, 1]),
   (⟨2025, 12, 5⟩, [2, 3]),
   (⟨2025, 12, 9⟩, [8, 9]), (⟨2025, 12, 10⟩, [0, 1]),
   (⟨2025, 12, 11⟩, [2, 3]), (⟨2025, 12, 12⟩, [4, 5]),
   (⟨2025, 12, 15⟩, [8, 9]), (⟨2025, 12, 16⟩, [0, 1])]

/-- Dictionary lookup `CALENDARIO_PICO_PLACA_2025[fecha]` / `fecha in ...`. -/
def calendarioLookup (fecha : Fecha) : Option (List Nat) :=
  (CALENDARIO_PICO_PLACA_2025.find? (fun e => e.1 = fecha)).map (fun e => e.2)

/-- `DEMO_MODE = False` (module-level flag; kept as a parameter below so the
demo-mode behaviour can also be reasoned about). -/
def DEMO_MODE : Bool := false

/-- `DEMO_DATETIME = datetime(2025, 11, 12, 8, 0, 0)` -/
def DEMO_DATETIME : FechaHora := ⟨⟨2025, 11, 12⟩, ⟨8, 0, 0⟩⟩

/-- `_get_fecha_hora`: demo mode forces `DEMO_DATETIME`; otherwise the given
datetime, or the current clock (`now`, modelling `datetime.now()`) when
`None` was passed. -/
def _get_fecha_hora (demoMode : Bool) (now : FechaHora)
    (fecha_hora : Option FechaHora) : FechaHora :=
  if demoMode then DEMO_DATETIME
  else
    match fecha_hora with
    | none => now
    | some fh => fh

/-- `_ultimo_digito`: scan the plate from the end for the first decimal
digit; `none` models the `ValueError` raised when no digit exists.
(`placa.upper()` does not affect digit characters.) -/
def _ultimo_digito (placa : String) : Option Nat :=
  (placa.toList.reverse.find? (fun c => c.isDigit)).map
    (fun c => c.toNat - 48)

/-- Which `return` of `puede_circular_pasto` produced the result
(abstracting the Spanish `motivo` message text). -/
inductive Motivo
  | sinPicoYPlaca
  | restringido
  | permitido
deriving DecidableEq, Repr

/-- Effective restricted-digit list for a date: the weekday default,
overwritten by the special calendar when the date appears there
(lines 150-155 of the source). -/
def restringidosDelDia (fecha : Fecha) : List Nat :=
  let base := RESTRICCIONES_get (DIA_MAP (diaSemana fecha))
  match calendarioLookup fecha with
  | some ds => ds
  | none => base

/-- `puede_circular_pasto(placa, fecha_hora)`.  Returns
`(bool, detalle)`; `Except.error` models the `ValueError` propagated
from `_ultimo_digito`.  `demoMode` is the module global `DEMO_MODE`
and `now` the value `datetime.now()` would produce. -/
def puede_circular_pasto (demoMode : Bool) (now : FechaHora)
    (placa : String) (fecha_hora : Option FechaHora) :
    Except String (Bool × Motivo) :=
  let fh := _get_fecha_hora demoMode now fecha_hora
  let fecha := fh.date
  let hora := fh.time
  let dia_es := DIA_MAP (diaSemana fecha)
  if dia_es = "SABADO" ∨ dia_es = "DOMINGO" ∨ fecha ∈ FESTIVOS_2025 then
    .ok (true, .sinPicoYPlaca)
  else
    match _ultimo_digito placa with
    | none => .error "Placa invalida"
    | some ultimo =>
      let restringidos := restringidosDelDia fecha
      let en_horario :=
        HORARIO_INICIO.toSeconds ≤ hora.toSeconds ∧
          hora.toSeconds ≤ HORARIO_FIN.toSeconds
      if ultimo ∈ restringidos ∧ en_horario then
        .ok (false, .restringido)
      else
        .ok (true, .permitido)

/-! ## Ledger layer (`db/db.py`) -/

/-- A row of the `vehicles` table. -/
structure VehicleRow where
  plate : String
  color : String
  first_seen : FechaHora
  last_seen : FechaHora
deriving DecidableEq, Repr

/-- Which reason text a detection/violation row carries (abstracting the
concrete Spanish message strings built by the callers). -/
inductive Reason
  | regla (m : Motivo)
  | noRegistrado
  | infraccion (m : Motivo)
  | permitida (m : Motivo)
  | errorEvaluacion
deriving DecidableEq, Repr

/-- A row of the `detections` table (the autoincrement id is the list
position). -/
structure DetectionRow where
  plate : String
  color : String
  timestamp : FechaHora
  source : String
  bbox : String
  violation : Bool
  reason : Reason
  photo_path : Option String
deriving DecidableEq, Repr

/-- A row of the `violations` table. -/
structure ViolationRow where
  plate : String
  color : String
  timestamp : FechaHora
  reason : Reason
  photo_path : Option String
deriving DecidableEq, Repr

/-- The three tables created by `init_db`. -/
structure DB where
  vehicles : List VehicleRow
  detections : List DetectionRow
  violations : List ViolationRow
deriving DecidableEq, Repr

def DB.empty : DB := ⟨[], [], []⟩

/-- `upsert_vehicle`: insert a new row with `first_seen = last_seen = ts`
when the plate is absent, else update `color` and `last_seen` only
(`plate` is the primary key, so at most one row matches). -/
def upsert_vehicle (db : DB) (plate color : String) (ts : FechaHora) : DB :=
  if (db.vehicles.find? (fun v => v.plate = plate)).isSome then
    { db with vehicles := db.vehicles.map (fun v =>
        if v.plate = plate then { v with color := color, last_seen := ts }
        else v) }
  else
    { db with vehicles := db.vehicles ++
        [{ plate := plate, color := color, first_seen := ts, last_seen := ts }] }

/-- `insert_detection`: plain append into `detections`. -/
def insert_detection (db : DB) (row : DetectionRow) : DB :=
  { db with detections := db.detections ++ [row] }

/-- `insert_violation`: plain append into `violations`. -/
def insert_violation (db : DB) (row : ViolationRow) : DB :=
  { db with violations := db.violations ++ [row] }

/-- Result shape of `get_plate_status`. -/
structure PlateStatus where
  color : Option String
  first_seen : Option FechaHora
  last_seen : Option FechaHora
  violations : Nat
deriving DecidableEq, Repr

/-- `get_plate_status`: vehicle row fields (or `None`s) plus the violation
count. -/
def get_plate_status (db : DB) (plate : String) : PlateStatus :=
  match db.vehicles.find? (fun v => v.plate = plate) with
  | some v =>
    { color := some v.color, first_seen := some v.first_seen,
      last_seen := some v.last_seen,
      violations := (db.violations.filter (fun w => w.plate = plate)).length }
  | none =>
    { color := none, first_seen := none, last_seen := none,
      violations := (db.violations.filter (fun w => w.plate = plate)).length }

/-- Plate normalisation in `registrar_deteccion_y_multa`:
`plate.upper().replace(" ", "").replace("-", "")` (uppercasing applied
per character). -/
def normPlate (plate : String) : String :=
  String.mk ((plate.toList.map Char.toUpper).filter
    (fun c => c ≠ ' ' ∧ c ≠ '-'))

/-- `registrar_deteccion_y_multa`: evaluate the rules for the normalised
plate at `ts`, upsert the vehicle, append the detection, and append a
violation when the plate may not circulate.  The `ValueError` a digitless
plate raises inside `puede_circular_pasto` propagates (`Except.error`)
before any table is touched. -/
def registrar_deteccion_y_multa (demoMode : Bool) (now : FechaHora)
    (db : DB) (plate color : String) (ts : FechaHora)
    (source bbox : String) (photo_path : Option String) :
    Except String (DB × Bool × Motivo) :=
  let norm_plate := normPlate plate
  match puede_circular_pasto demoMode now norm_plate (some ts) with
  | .error e => .error e
  | .ok (puede, detalle) =>
    let motivo := detalle
    let es_violacion := !puede
    let db1 := upsert_vehicle db norm_plate color ts
    let db2 := insert_detection db1
      { plate := norm_plate, color := color, timestamp := ts,
        source := source, bbox := bbox, violation := es_violacion,
        reason := .regla motivo, photo_path := photo_path }
    let db3 :=
      if es_violacion then
        insert_violation db2
          { plate := norm_plate, color := color, timestamp := ts,
            reason := .regla motivo, photo_path := photo_path }
      else db2
    .ok (db3, es_violacion, motivo)

/-! ## Live-camera orchestrator (`detector/live_camera.py`) -/

/-- One successfully OCR-ed plate event reaching step 5 of the loop body.
`ts` is the frame timestamp (`datetime.now()` at frame start); `now` is
the clock value when `puede_circular_pasto(plate_text, None)` internally
calls `datetime.now()` again. -/
structure Event where
  plate : String
  color : String
  ts : FechaHora
  now : FechaHora
  bbox : String
deriving DecidableEq, Repr

/-- The imported rule oracle as the loop sees it: one verdict (or a raised
error) per event. -/
abbrev RuleFn : Type := Event → Except String (Bool × Motivo)

/-- The actual binding in the source: `puede_circular_pasto(plate_text, None)`
with the module globals (`DEMO_MODE = False`), the inner `datetime.now()`
being the event's evaluation clock. -/
def realReglas : RuleFn := fun ev =>
  puede_circular_pasto DEMO_MODE ev.now ev.plate none

/-- The in-memory `cooldown : dict[str, datetime]`. -/
abbrev Cooldown : Type := List (String × FechaHora)

def cooldownGet (cd : Cooldown) (p : String) : Option FechaHora :=
  (List.find? (fun e => e.1 = p) cd).map (fun e => e.2)

/-- `cooldown[plate] = ts` (dict assignment). -/
def cooldownSet (cd : Cooldown) (p : String) (ts : FechaHora) : Cooldown :=
  if (List.find? (fun e => e.1 = p) cd).isSome then
    List.map (fun e => if e.1 = p then (p, ts) else e) cd
  else cd ++ [(p, ts)]

def COOLDOWN_SEC : Int := 10

/-- The guard `(not last_t) or (ts - last_t) > timedelta(seconds=COOLDOWN_SEC)`. -/
def cooldownPermits (cd : Cooldown) (p : String) (ts : FechaHora) : Bool :=
  match cooldownGet cd p with
  | none => true
  | some last_t => COOLDOWN_SEC < ts.toSeconds - last_t.toSeconds

/-- Process-local state of the live-camera loop. -/
structure CamState where
  db : DB
  cooldown : Cooldown
deriving DecidableEq, Repr

/-- Write faults injected at each guarded (try/except-wrapped) operation of
the loop body: a `true` flag makes that storage call raise, which the
source catches, logs and survives. -/
structure Faults where
  statusFail : Bool
  upsertFail : Bool
  detectionFail : Bool
  violationFail : Bool
deriving DecidableEq, Repr

def noFaults : Faults := ⟨false, false, false, false⟩

/-- Abstraction of the fotomulta file name
`FOTOMULTAS_DIR / f"plate_ts.jpg"` (content irrelevant to the ledger). -/
def fotoPath (ev : Event) : String := ev.plate ++ ".jpg"

/-- One iteration of the per-plate body of `live_camera` (steps 5-6 and
cases A/B), with the source's try/except blocks made explicit: a failing
storage call leaves the tables unchanged and the loop continues. -/
def liveCameraStepF (reglas : RuleFn) (f : Faults) (st : CamState)
    (ev : Event) : CamState :=
  let registered_before :=
    if f.statusFail then false
    else (get_plate_status st.db ev.plate).first_seen.isSome
  let db1 :=
    if f.upsertFail then st.db
    else upsert_vehicle st.db ev.plate ev.color ev.ts
  if ¬ registered_before then
    let db2 :=
      if f.detectionFail then db1
      else insert_detection db1
        { plate := ev.plate, color := ev.color, timestamp := ev.ts,
          source := "<live_camera>", bbox := ev.bbox, violation := false,
          reason := .noRegistrado, photo_path := none }
    { st with db := db2 }
  else
    let vm : Bool × Reason :=
      match reglas ev with
      | .error _ => (false, .errorEvaluacion)
      | .ok (okf, m) => (!okf, if okf then .permitida m else .infraccion m)
    let violation := vm.1
    if violation then
      if cooldownPermits st.cooldown ev.plate ev.ts then
        let cd1 := cooldownSet st.cooldown ev.plate ev.ts
        let photo := fotoPath ev
        let db2 :=
          if f.violationFail then db1
          else insert_violation db1
            { plate := ev.plate, color := ev.color, timestamp := ev.ts,
              reason := vm.2, photo_path := some photo }
        let db3 :=
          if f.detectionFail then db2
          else insert_detection db2
            { plate := ev.plate, color := ev.color, timestamp := ev.ts,
              source := "<live_camera>", bbox := ev.bbox, violation := true,
              reason := vm.2, photo_path := some photo }
        { db := db3, cooldown := cd1 }
      else
        let db2 :=
          if f.detectionFail then db1
          else insert_detection db1
            { plate := ev.plate, color := ev.color, timestamp := ev.ts,
              source := "<live_camera>", bbox := ev.bbox, violation := true,
              reason := vm.2, photo_path := none }
        { st with db := db2 }
    else
      let db2 :=
        if f.detectionFail then db1
        else insert_detection db1
          { plate := ev.plate, color := ev.color, timestamp := ev.ts,
            source := "<live_camera>", bbox := ev.bbox, violation := false,
            reason := vm.2, photo_path := none }
      { st with db := db2 }

/-- The loop body without storage faults (the normal run). -/
def liveCameraStep (reglas : RuleFn) (st : CamState) (ev : Event) :
    CamState :=
  liveCameraStepF reglas noFaults st ev

/-- The live-camera loop over a finite stream of plate events. -/
def liveCameraRun (reglas : RuleFn) (st : CamState) (evs : List Event) :
    CamState :=
  evs.foldl (liveCameraStep reglas) st

/-- The loop under injected storage faults. -/
def liveCameraRunF (reglas : RuleFn) (f : Faults) (st : CamState)
    (evs : List Event) : CamState :=
  evs.foldl (liveCameraStepF reglas f) st

/-! ## Fallible view of the ledger writes

`get_conn` commits only when the body succeeded and re-raises any sqlite
error (`insert_detection` / `insert_violation` contain no handler of their
own), so the caller of a write either sees the committed append or the
raised error, never a silent no-op reported as success.  The `fail` flag
injects the underlying storage fault. -/

inductive StorageError
  | storage
deriving DecidableEq, Repr

/-- `insert_detection` as its caller observes it. -/
def insert_detection_e (fail : Bool) (db : DB) (row : DetectionRow) :
    Except StorageError DB :=
  if fail then .error .storage else .ok (insert_detection db row)

/-- `insert_violation` as its caller observes it. -/
def insert_violation_e (fail : Bool) (db : DB) (row : ViolationRow) :
    Except StorageError DB :=
  if fail then .error .storage else .ok (insert_violation db row)

/-! ## Invariant predicates -/

/-- Every violation row is paired with a detection row for the same plate
and timestamp flagged as a violation. -/
abbrev violationsCovered (db : DB) : Prop :=
  ∀ v ∈ db.violations, ∃ d ∈ db.detections,
    d.plate = v.plate ∧ d.timestamp = v.timestamp ∧ d.violation = true

/-- `first_seen ≤ last_seen` on every vehicle row. -/
abbrev vehiclesWF (db : DB) : Prop :=
  ∀ v ∈ db.vehicles, v.first_seen.toSeconds ≤ v.last_seen.toSeconds

/-! ## Concrete fixtures used by witnesses and counterexamples -/

/-- Monday 2025-11-10 08:00:00 (a weekday inside the restriction window,
not a holiday, not in the override calendar). -/
def lunes8 : FechaHora := ⟨⟨2025, 11, 10⟩, ⟨8, 0, 0⟩⟩

/-- Five seconds after `lunes8` (inside the 10 s cooldown). -/
def lunes8s5 : FechaHora := ⟨⟨2025, 11, 10⟩, ⟨8, 0, 5⟩⟩

/-- An earlier timestamp, for pre-registered vehicles. -/
def dtPrev : FechaHora := ⟨⟨2025, 11, 7⟩, ⟨12, 0, 0⟩⟩

def vehW : VehicleRow := ⟨"AAA111", "rojo", dtPrev, dtPrev⟩

/-- A camera state whose ledger already knows plate AAA111. -/
def stW : CamState := ⟨⟨[vehW], [], []⟩, []⟩

/-- A camera state with an empty ledger. -/
def stEmpty : CamState := ⟨DB.empty, []⟩

def evW1 : Event := ⟨"AAA111", "rojo", lunes8, lunes8, "0,0,10,10"⟩

def evW2 : Event := ⟨"AAA111", "rojo", lunes8s5, lunes8s5, "0,0,10,10"⟩

/-- An alternative rule configuration (everything restricted), used to show
outcomes that cannot depend on the calendar. -/
def siempreRestringe : RuleFn := fun _ => .ok (false, .restringido)

/-- A sample detection row. -/
def dRowW : DetectionRow :=
  ⟨"AAA111", "rojo", lunes8, "api", "0,0,10,10", false, .noRegistrado, none⟩

/-! ## Helper lemmas -/

theorem upsert_vehicle_detections (db : DB) (p c : String) (t : FechaHora) :
    (upsert_vehicle db p c t).detections = db.detections := by
  unfold upsert_vehicle; split <;> rfl

theorem upsert_vehicle_violations (db : DB) (p c : String) (t : FechaHora) :
    (upsert_vehicle db p c t).violations = db.violations := by
  unfold upsert_vehicle; split <;> rfl

theorem get_plate_status_first_seen (db : DB) (p : String) :
    (get_plate_status db p).first_seen
      = (db.vehicles.find? (fun v => v.plate = p)).map (fun v => v.first_seen) := by
  unfold get_plate_status
  cases h : db.vehicles.find? (fun v => v.plate = p) <;> simp [h]

theorem find?_plate_map_upd (l : List VehicleRow) (p c : String) (t : FechaHora) :
    ((l.map (fun v =>
        if v.plate = p then { v with color := c, last_seen := t } else v)).find?
        (fun v => v.plate = p)).isSome
      = (l.find? (fun v => v.plate = p)).isSome := by
  induction l with
  | nil => rfl
  | cons v l ih =>
    by_cases hv : v.plate = p
    · simp [hv]
    · rw [List.map_cons, if_neg hv, List.find?_cons_of_neg _ (by simp [hv]),
        List.find?_cons_of_neg _ (by simp [hv])]
      exact ih

theorem upsert_vehicle_finds (db : DB) (p c : String) (t : FechaHora) :
    ((upsert_vehicle db p c t).vehicles.find? (fun v => v.plate = p)).isSome
      = true := by
  unfold upsert_vehicle
  by_cases h : (db.vehicles.find? (fun v => v.plate = p)).isSome = true
  · rw [if_pos h]
    exact (find?_plate_map_upd db.vehicles p c t).trans h
  · rw [if_neg h]
    have hnone : db.vehicles.find? (fun v => v.plate = p) = none := by
      cases hf : db.vehicles.find? (fun v => v.plate = p) with
      | none => rfl
      | some v => rw [hf] at h; simp at h
    simp [List.find?_append, hnone]

theorem find?_fst_map_set (cd : List (String × FechaHora)) (p : String)
    (ts : FechaHora) :
    ((cd.map (fun e => if e.1 = p then (p, ts) else e)).find?
        (fun e => e.1 = p))
      = if (cd.find? (fun e => e.1 = p)).isSome then some (p, ts) else none := by
  induction cd with
  | nil => rfl
  | cons e cd ih =>
    by_cases he : e.1 = p
    · simp [he]
    · rw [List.map_cons, if_neg he, List.find?_cons_of_neg _ (by simp [he]),
        List.find?_cons_of_neg _ (by simp [he])]
      exact ih

theorem cooldownGet_set (cd : Cooldown) (p : String) (ts : FechaHora) :
    cooldownGet (cooldownSet cd p ts) p = some ts := by
  unfold cooldownGet cooldownSet
  by_cases h : (List.find? (fun e => e.1 = p) cd).isSome = true
  · rw [if_pos h, find?_fst_map_set, if_pos h]
    rfl
  · rw [if_neg h]
    have hnone : List.find? (fun e => e.1 = p) cd = none := by
      cases hf : List.find? (fun e => e.1 = p) cd with
      | none => rfl
      | some e => rw [hf] at h; simp at h
    simp [List.find?_append, hnone]

/-- With `DEMO_MODE = False`, an explicit datetime argument is used as is. -/
theorem get_fecha_hora_false (now fh : FechaHora) :
    _get_fecha_hora false now (some fh) = fh := rfl

theorem insert_detection_vehicles (db : DB) (r : DetectionRow) :
    (insert_detection db r).vehicles = db.vehicles := rfl

theorem insert_detection_detections (db : DB) (r : DetectionRow) :
    (insert_detection db r).detections = db.detections ++ [r] := rfl

theorem insert_detection_violations (db : DB) (r : DetectionRow) :
    (insert_detection db r).violations = db.violations := rfl

theorem insert_violation_vehicles (db : DB) (r : ViolationRow) :
    (insert_violation db r).vehicles = db.vehicles := rfl

theorem insert_violation_detections (db : DB) (r : ViolationRow) :
    (insert_violation db r).detections = db.detections := rfl

theorem insert_violation_violations (db : DB) (r : ViolationRow) :
    (insert_violation db r).violations = db.violations ++ [r] := rfl

theorem upsert_vehicle_status_isSome (db : DB) (p c : String) (t : FechaHora) :
    ((get_plate_status (upsert_vehicle db p c t) p).first_seen).isSome
      = true := by
  rw [get_plate_status_first_seen]
  obtain ⟨v, hv⟩ := Option.isSome_iff_exists.mp (upsert_vehicle_finds db p c t)
  rw [hv]
  rfl

/-- Shape of a loop iteration on an unregistered plate (CASE A): one
non-violation detection row, no rule evaluation, nothing else. -/
theorem step_unregistered (reglas : RuleFn) (st : CamState) (ev : Event)
    (h : st.db.vehicles.find? (fun v => v.plate = ev.plate) = none) :
    liveCameraStep reglas st ev =
      { st with
        db := insert_detection (upsert_vehicle st.db ev.plate ev.color ev.ts)
          { plate := ev.plate, color := ev.color, timestamp := ev.ts,
            source := "<live_camera>", bbox := ev.bbox, violation := false,
            reason := .noRegistrado, photo_path := none } } := by
  unfold liveCameraStep liveCameraStepF noFaults
  rw [get_plate_status_first_seen, h]
  rfl

/-- Shape of a loop iteration on a registered plate whose rule verdict is
Restricted while the cooldown permits: a violation row and a matching
violation-flagged detection row, and the cooldown timestamp updated. -/
theorem step_known_restricted_permit (reglas : RuleFn) (st : CamState)
    (ev : Event) (m : Motivo)
    (hreg : ((get_plate_status st.db ev.plate).first_seen).isSome = true)
    (hr : reglas ev = .ok (false, m))
    (hperm : cooldownPermits st.cooldown ev.plate ev.ts = true) :
    liveCameraStep reglas st ev =
      { db := insert_detection
          (insert_violation (upsert_vehicle st.db ev.plate ev.color ev.ts)
            { plate := ev.plate, color := ev.color, timestamp := ev.ts,
              reason := .infraccion m, photo_path := some (fotoPath ev) })
          { plate := ev.plate, color := ev.color, timestamp := ev.ts,
            source := "<live_camera>", bbox := ev.bbox, violation := true,
            reason := .infraccion m, photo_path := some (fotoPath ev) },
        cooldown := cooldownSet st.cooldown ev.plate ev.ts } := by
  unfold liveCameraStep liveCameraStepF noFaults
  rw [hreg, hr, hperm]
  rfl

/-- Shape of a loop iteration on a registered plate whose rule verdict is
Restricted while the cooldown suppresses: a violation-flagged detection
row only, no new violation row, cooldown untouched. -/
theorem step_known_restricted_suppress (reglas : RuleFn) (st : CamState)
    (ev : Event) (m : Motivo)
    (hreg : ((get_plate_status st.db ev.plate).first_seen).isSome = true)
    (hr : reglas ev = .ok (false, m))
    (hperm : cooldownPermits st.cooldown ev.plate ev.ts = false) :
    liveCameraStep reglas st ev =
      { st with
        db := insert_detection (upsert_vehicle st.db ev.plate ev.color ev.ts)
          { plate := ev.plate, color := ev.color, timestamp := ev.ts,
            source := "<live_camera>", bbox := ev.bbox, violation := true,
            reason := .infraccion m, photo_path := none } } := by
  unfold liveCameraStep liveCameraStepF noFaults
  rw [hreg, hr, hperm]
  rfl

/-- Shape of a loop iteration on a registered plate whose rule verdict is
Allowed: one non-violation detection row. -/
theorem step_known_allowed (reglas : RuleFn) (st : CamState) (ev : Event)
    (m : Motivo)
    (hreg : ((get_plate_status st.db ev.plate).first_seen).isSome = true)
    (hr : reglas ev = .ok (true, m)) :
    liveCameraStep reglas st ev =
      { st with
        db := insert_detection (upsert_vehicle st.db ev.plate ev.color ev.ts)
          { plate := ev.plate, color := ev.color, timestamp := ev.ts,
            source := "<live_camera>", bbox := ev.bbox, violation := false,
            reason := .permitida m, photo_path := none } } := by
  unfold liveCameraStep liveCameraStepF noFaults
  rw [hreg, hr]
  rfl

/-- Shape of a loop iteration on a registered plate when the rule call
raises: the error is caught, the event is recorded as a non-violation. -/
theorem step_known_error (reglas : RuleFn) (st : CamState) (ev : Event)
    (e : String)
    (hreg : ((get_plate_status st.db ev.plate).first_seen).isSome = true)
    (hr : reglas ev = .error e) :
    liveCameraStep reglas st ev =
      { st with
        db := insert_detection (upsert_vehicle st.db ev.plate ev.color ev.ts)
          { plate := ev.plate, color := ev.color, timestamp := ev.ts,
            source := "<live_camera>", bbox := ev.bbox, violation := false,
            reason := .errorEvaluacion, photo_path := none } } := by
  unfold liveCameraStep liveCameraStepF noFaults
  rw [hreg, hr]
  rfl

/-! ## Claims about the restriction calendar -/

/-- C1: on every Saturday, Sunday or holiday date the resolver answers
Allowed ("no pico y placa today") for every plate and every time of day,
before the override calendar or the weekday default is even consulted. -/
theorem c1_weekend_holiday_allowed (placa : String) (now fh : FechaHora)
    (h : diaSemana fh.date = .saturday ∨ diaSemana fh.date = .sunday ∨
         fh.date ∈ FESTIVOS_2025) :
    puede_circular_pasto false now placa (some fh)
      = .ok (true, .sinPicoYPlaca) := by
  have hcond : DIA_MAP (diaSemana fh.date) = "SABADO" ∨
      DIA_MAP (diaSemana fh.date) = "DOMINGO" ∨ fh.date ∈ FESTIVOS_2025 := by
    rcases h with h | h | h
    · exact Or.inl (by rw [h]; rfl)
    · exact Or.inr (Or.inl (by rw [h]; rfl))
    · exact Or.inr (Or.inr h)
  unfold puede_circular_pasto
  rw [get_fecha_hora_false]
  exact if_pos hcond

theorem c1_weekend_holiday_allowed_witness :
    (⟨2025, 12, 8⟩ : Fecha) ∈ FESTIVOS_2025 ∧
    puede_circular_pasto false lunes8 "XYZ789"
        (some ⟨⟨2025, 12, 8⟩, ⟨8, 0, 0⟩⟩) = .ok (true, .sinPicoYPlaca) :=
  ⟨by decide,
   c1_weekend_holiday_allowed "XYZ789" lunes8 ⟨⟨2025, 12, 8⟩, ⟨8, 0, 0⟩⟩
     (Or.inr (Or.inr (by decide)))⟩

/-- C2: a date carrying an override entry uses exactly that entry as its
restricted-digit set (the weekday default is discarded, not merged), so a
digit outside the override circulates freely on such a (non-exempt) day. -/
theorem c2_override_replaces_default (fecha : Fecha) (ds : List Nat)
    (hov : calendarioLookup fecha = some ds) :
    restringidosDelDia fecha = ds ∧
    (∀ (placa : String) (hora : Hora) (now : FechaHora) (u : Nat),
      _ultimo_digito placa = some u → u ∉ ds →
      ¬(DIA_MAP (diaSemana fecha) = "SABADO" ∨
        DIA_MAP (diaSemana fecha) = "DOMINGO" ∨ fecha ∈ FESTIVOS_2025) →
      puede_circular_pasto false now placa (some ⟨fecha, hora⟩)
        = .ok (true, .permitido)) := by
  have hset : restringidosDelDia fecha = ds := by
    unfold restringidosDelDia
    rw [hov]
  refine ⟨hset, ?_⟩
  intro placa hora now u hu hnotin hwd
  unfold puede_circular_pasto
  rw [get_fecha_hora_false]
  rw [if_neg hwd]
  dsimp only
  rw [hu]
  dsimp only
  rw [hset]
  exact if_neg (fun hc => hnotin hc.1)

theorem c2_override_replaces_default_witness :
    calendarioLookup ⟨2025, 12, 1⟩ = some [4, 5] ∧
    puede_circular_pasto false lunes8 "AAA110"
        (some ⟨⟨2025, 12, 1⟩, ⟨8, 0, 0⟩⟩) = .ok (true, .permitido) :=
  ⟨by decide,
   (c2_override_replaces_default ⟨2025, 12, 1⟩ [4, 5] (by decide)).2
     "AAA110" ⟨8, 0, 0⟩ lunes8 0 (by decide) (by decide) (by decide)⟩

/-- C4 counterexample: the plate "ABC" contains no digit, yet on Saturday
2025-11-15 the resolver returns Allowed instead of signalling the
invalid-plate error, because the weekend check precedes digit
extraction. -/
theorem c4_counterexample :
    _ultimo_digito "ABC" = none ∧
    puede_circular_pasto false lunes8 "ABC"
        (some ⟨⟨2025, 11, 15⟩, ⟨8, 0, 0⟩⟩) = .ok (true, .sinPicoYPlaca) :=
  ⟨rfl, rfl⟩

/-- C4 (amended): on every date that is not a weekend day and not a
holiday, a plate with no digit character makes the resolver raise the
invalid-plate error (`ValueError`) for every time of day; it is never
converted into an Allowed or Restricted verdict there. -/
theorem c4_invalid_plate_error (placa : String) (now fh : FechaHora)
    (hnd : _ultimo_digito placa = none)
    (hwd : ¬(DIA_MAP (diaSemana fh.date) = "SABADO" ∨
        DIA_MAP (diaSemana fh.date) = "DOMINGO" ∨ fh.date ∈ FESTIVOS_2025)) :
    puede_circular_pasto false now placa (some fh)
      = .error "Placa invalida" := by
  unfold puede_circular_pasto
  rw [get_fecha_hora_false]
  rw [if_neg hwd]
  dsimp only
  rw [hnd]

theorem c4_invalid_plate_error_witness :
    _ultimo_digito "ABC" = none ∧
    puede_circular_pasto false lunes8 "ABC"
        (some ⟨⟨2025, 11, 18⟩, ⟨8, 0, 0⟩⟩) = .error "Placa invalida" :=
  ⟨by decide,
   c4_invalid_plate_error "ABC" lunes8 ⟨⟨2025, 11, 18⟩, ⟨8, 0, 0⟩⟩
     (by decide) (by decide)⟩

/-- C6: the daily window is inclusive at both ends: with a restricted digit
on a non-exempt date, a time equal to `HORARIO_INICIO` or `HORARIO_FIN` is
Restricted, while any time strictly before the start or strictly after the
end is Allowed. -/
theorem c6_window_inclusive (placa : String) (now : FechaHora) (fecha : Fecha)
    (u : Nat)
    (hwd : ¬(DIA_MAP (diaSemana fecha) = "SABADO" ∨
        DIA_MAP (diaSemana fecha) = "DOMINGO" ∨ fecha ∈ FESTIVOS_2025))
    (hu : _ultimo_digito placa = some u)
    (hres : u ∈ restringidosDelDia fecha) :
    (∀ hora : Hora, hora = HORARIO_INICIO ∨ hora = HORARIO_FIN →
      puede_circular_pasto false now placa (some ⟨fecha, hora⟩)
        = .ok (false, .restringido)) ∧
    (∀ hora : Hora,
      hora.toSeconds < HORARIO_INICIO.toSeconds ∨
        HORARIO_FIN.toSeconds < hora.toSeconds →
      puede_circular_pasto false now placa (some ⟨fecha, hora⟩)
        = .ok (true, .permitido)) := by
  constructor
  · intro hora hh
    unfold puede_circular_pasto
    rw [get_fecha_hora_false]
    rw [if_neg hwd]
    dsimp only
    rw [hu]
    dsimp only
    rcases hh with hh | hh <;> subst hh <;>
      exact if_pos ⟨hres, by decide, by decide⟩
  · intro hora hh
    unfold puede_circular_pasto
    rw [get_fecha_hora_false]
    rw [if_neg hwd]
    dsimp only
    rw [hu]
    dsimp only
    refine if_neg (fun hc => ?_)
    rcases hc with ⟨-, h1, h2⟩
    unfold Hora.toSeconds at h1 h2 hh
    rcases hh with hh | hh <;> omega

theorem c6_window_inclusive_witness :
    _ultimo_digito "AAA111" = some 1 ∧
    puede_circular_pasto false lunes8 "AAA111"
        (some ⟨⟨2025, 11, 10⟩, HORARIO_FIN⟩) = .ok (false, .restringido) ∧
    puede_circular_pasto false lunes8 "AAA111"
        (some ⟨⟨2025, 11, 10⟩, ⟨19, 1, 0⟩⟩) = .ok (true, .permitido) :=
  ⟨by decide,
   (c6_window_inclusive "AAA111" lunes8 ⟨2025, 11, 10⟩ 1
       (by decide) (by decide) (by decide)).1 HORARIO_FIN (Or.inr rfl),
   (c6_window_inclusive "AAA111" lunes8 ⟨2025, 11, 10⟩ 1
       (by decide) (by decide) (by decide)).2 ⟨19, 1, 0⟩ (Or.inr (by decide))⟩

/-- C10: with the module flag `DEMO_MODE` set, the resolver evaluates the
fixed `DEMO_DATETIME` no matter which datetime argument (including `None`)
or wall clock is supplied: any two calls for the same plate coincide. -/
theorem c10_demo_mode_ignores_clock (placa : String) (now1 now2 : FechaHora)
    (fh1 fh2 : Option FechaHora) :
    puede_circular_pasto true now1 placa fh1
      = puede_circular_pasto true now2 placa fh2 := rfl

/-! ## Claims about the sighting pipeline -/

/-- C3 counterexample: `registrar_deteccion_y_multa` (db.py), fed the very
first detection event ever for plate AAA111 (empty ledger) on a restricted
weekday morning, consults the calendar and records `is_violation = true`
together with a ViolationRecord — not the `false`/no-violation outcome the
claim asserts for every first sighting. -/
theorem c3_counterexample :
    (registrar_deteccion_y_multa false lunes8 DB.empty "AAA111" "rojo"
        lunes8 "api" "0,0,10,10" none).map
      (fun r => (r.1.violations.length,
                 r.1.detections.map (fun d => d.violation), r.2.1))
      = .ok (1, [true], true) := rfl

/-- C3 (amended): in the `live_camera` orchestrator the first-sighting gate
does hold: an event for a plate absent from the vehicles table yields
exactly one DetectionRecord with `is_violation = false`, no
ViolationRecord, and the rule oracle is never consulted (any two rule
configurations give the identical new state).  The other ingestion paths
(`registrar_deteccion_y_multa`, process_video) lack this gate. -/
theorem c3_first_sighting_gate (reglas reglas2 : RuleFn) (st : CamState)
    (ev : Event)
    (h : st.db.vehicles.find? (fun v => v.plate = ev.plate) = none) :
    (liveCameraStep reglas st ev).db.detections
        = st.db.detections ++
          [{ plate := ev.plate, color := ev.color, timestamp := ev.ts,
             source := "<live_camera>", bbox := ev.bbox, violation := false,
             reason := .noRegistrado, photo_path := none }] ∧
    (liveCameraStep reglas st ev).db.violations = st.db.violations ∧
    liveCameraStep reglas st ev = liveCameraStep reglas2 st ev := by
  rw [step_unregistered reglas st ev h, step_unregistered reglas2 st ev h]
  refine ⟨?_, ?_, rfl⟩
  · rw [insert_detection_detections, upsert_vehicle_detections]
  · rw [insert_detection_violations, upsert_vehicle_violations]

theorem c3_first_sighting_gate_witness :
    stEmpty.db.vehicles.find? (fun v => v.plate = evW1.plate) = none ∧
    (liveCameraStep realReglas stEmpty evW1).db.violations = [] ∧
    liveCameraStep realReglas stEmpty evW1
      = liveCameraStep siempreRestringe stEmpty evW1 := by
  have h := c3_first_sighting_gate realReglas siempreRestringe stEmpty evW1 rfl
  exact ⟨rfl, h.2.1, h.2.2⟩

/-- C5: for a known plate, two Restricted detections whose second timestamp
is within the 10-second cooldown of the first persist exactly one
ViolationRecord, yet both persist a `is_violation = true` DetectionRecord;
the guard permits exactly when no prior persisted violation exists or
strictly more than the cooldown has elapsed, and on permit the plate's
last-persisted-violation timestamp is updated. -/
theorem c5_cooldown_dedup (st : CamState) (ev1 ev2 : Event) (m1 m2 : Motivo)
    (hp : ev2.plate = ev1.plate)
    (hreg : ((get_plate_status st.db ev1.plate).first_seen).isSome = true)
    (hcd : cooldownGet st.cooldown ev1.plate = none)
    (hr1 : realReglas ev1 = .ok (false, m1))
    (hr2 : realReglas ev2 = .ok (false, m2))
    (hts : ev2.ts.toSeconds - ev1.ts.toSeconds ≤ COOLDOWN_SEC) :
    (∃ d1 d2 : DetectionRow,
      (liveCameraRun realReglas st [ev1, ev2]).db.detections
          = st.db.detections ++ [d1, d2] ∧
      d1.violation = true ∧ d2.violation = true) ∧
    (liveCameraRun realReglas st [ev1, ev2]).db.violations.length
        = st.db.violations.length + 1 ∧
    cooldownGet (liveCameraRun realReglas st [ev1, ev2]).cooldown ev1.plate
        = some ev1.ts ∧
    (∀ (cd : Cooldown) (p : String) (t : FechaHora),
      cooldownPermits cd p t = true ↔
        (cooldownGet cd p = none ∨
         ∃ last, cooldownGet cd p = some last ∧
           COOLDOWN_SEC < t.toSeconds - last.toSeconds)) := by
  have hperm1 : cooldownPermits st.cooldown ev1.plate ev1.ts = true := by
    unfold cooldownPermits
    rw [hcd]
  have h1 := step_known_restricted_permit realReglas st ev1 m1 hreg hr1 hperm1
  have hreg2 :
      ((get_plate_status (liveCameraStep realReglas st ev1).db
          ev2.plate).first_seen).isSome = true := by
    rw [h1, hp]
    rw [get_plate_status_first_seen]
    rw [insert_detection_vehicles, insert_violation_vehicles]
    rw [← get_plate_status_first_seen]
    exact upsert_vehicle_status_isSome st.db ev1.plate ev1.color ev1.ts
  have hsupp :
      cooldownPermits (liveCameraStep realReglas st ev1).cooldown
        ev2.plate ev2.ts = false := by
    rw [h1, hp]
    unfold cooldownPermits
    rw [cooldownGet_set]
    refine decide_eq_false ?_
    simp only [COOLDOWN_SEC] at hts ⊢
    omega
  have h2 := step_known_restricted_suppress realReglas
    (liveCameraStep realReglas st ev1) ev2 m2 hreg2 hr2 hsupp
  have hrun : liveCameraRun realReglas st [ev1, ev2]
      = liveCameraStep realReglas (liveCameraStep realReglas st ev1) ev2 :=
    rfl
  refine ⟨?_, ?_, ?_, ?_⟩
  · have heq : (liveCameraRun realReglas st [ev1, ev2]).db.detections
        = st.db.detections ++
          [{ plate := ev1.plate, color := ev1.color, timestamp := ev1.ts,
             source := "<live_camera>", bbox := ev1.bbox, violation := true,
             reason := .infraccion m1, photo_path := some (fotoPath ev1) },
           { plate := ev2.plate, color := ev2.color, timestamp := ev2.ts,
             source := "<live_camera>", bbox := ev2.bbox, violation := true,
             reason := .infraccion m2, photo_path := none }] := by
      rw [hrun, h2]
      rw [insert_detection_detections, upsert_vehicle_detections, h1]
      rw [insert_detection_detections, insert_violation_detections,
        upsert_vehicle_detections]
      rw [List.append_assoc]
      rfl
    exact ⟨_, _, heq, rfl, rfl⟩
  · rw [hrun, h2]
    rw [insert_detection_violations, upsert_vehicle_violations, h1]
    rw [insert_detection_violations, insert_violation_violations,
      upsert_vehicle_violations]
    simp
  · rw [hrun, h2]
    show cooldownGet (liveCameraStep realReglas st ev1).cooldown ev1.plate
        = some ev1.ts
    rw [h1]
    exact cooldownGet_set st.cooldown ev1.plate ev1.ts
  · intro cd p t
    unfold cooldownPermits
    cases hg : cooldownGet cd p with
    | none => simp
    | some last => simp [hg]

theorem c5_cooldown_dedup_witness :
    realReglas evW1 = .ok (false, .restringido) ∧
    (liveCameraRun realReglas stW [evW1, evW2]).db.violations.length
        = stW.db.violations.length + 1 ∧
    cooldownGet (liveCameraRun realReglas stW [evW1, evW2]).cooldown
        evW1.plate = some evW1.ts := by
  have h := c5_cooldown_dedup stW evW1 evW2 .restringido .restringido
    rfl rfl rfl rfl rfl (by decide)
  exact ⟨rfl, h.2.1, h.2.2.1⟩

/-- C7 counterexample: `upsert_vehicle` overwrites `last_seen` with the
caller's timestamp unconditionally, so an upsert carrying an older
timestamp makes `last_seen` decrease below `first_seen`: after upserting
AAA111 at `lunes8` and then at the earlier `dtPrev`, the row reads
`first_seen = lunes8 > last_seen = dtPrev`. -/
theorem c7_counterexample :
    (upsert_vehicle (upsert_vehicle DB.empty "AAA111" "rojo" lunes8)
        "AAA111" "azul" dtPrev).vehicles
      = [{ plate := "AAA111", color := "azul", first_seen := lunes8,
           last_seen := dtPrev }] ∧
    dtPrev.toSeconds < lunes8.toSeconds := by
  exact ⟨rfl, by decide⟩

/-- C7 (amended): `first_seen` is written only by the inserting upsert and
preserved verbatim by every later upsert of the plate; provided the upsert
timestamps for a plate arrive in non-decreasing order (as the ingest loop
guarantees by stamping events with the current clock), `last_seen` is
non-decreasing and `first_seen ≤ last_seen` holds for every row. -/
theorem c7_upsert_props (db : DB) (p c : String) (t : FechaHora)
    (hwf : vehiclesWF db)
    (hmono : ∀ v ∈ db.vehicles, v.plate = p →
        v.last_seen.toSeconds ≤ t.toSeconds) :
    vehiclesWF (upsert_vehicle db p c t) ∧
    (∀ v ∈ db.vehicles, ¬ v.plate = p →
        v ∈ (upsert_vehicle db p c t).vehicles) ∧
    (∀ v ∈ db.vehicles, v.plate = p →
        ∃ v2 ∈ (upsert_vehicle db p c t).vehicles,
          v2.plate = v.plate ∧ v2.first_seen = v.first_seen ∧
          v2.last_seen = t ∧
          v.last_seen.toSeconds ≤ v2.last_seen.toSeconds) ∧
    (db.vehicles.find? (fun v => v.plate = p) = none →
        ({ plate := p, color := c, first_seen := t, last_seen := t } :
            VehicleRow) ∈ (upsert_vehicle db p c t).vehicles) := by
  unfold upsert_vehicle
  by_cases h : (db.vehicles.find? (fun v => v.plate = p)).isSome = true
  · rw [if_pos h]
    refine ⟨?_, ?_, ?_, ?_⟩
    · intro w hw
      rw [List.mem_map] at hw
      obtain ⟨v, hv, rfl⟩ := hw
      by_cases hvp : v.plate = p
      · rw [if_pos hvp]
        exact le_trans (hwf v hv) (hmono v hv hvp)
      · rw [if_neg hvp]
        exact hwf v hv
    · intro v hv hvp
      have hmm := List.mem_map_of_mem
        (fun v : VehicleRow =>
          if v.plate = p then { v with color := c, last_seen := t } else v) hv
      dsimp only at hmm ⊢
      rwa [if_neg hvp] at hmm
    · intro v hv hvp
      refine ⟨{ v with color := c, last_seen := t }, ?_, rfl, rfl, rfl,
        hmono v hv hvp⟩
      have hmm := List.mem_map_of_mem
        (fun v : VehicleRow =>
          if v.plate = p then { v with color := c, last_seen := t } else v) hv
      dsimp only at hmm ⊢
      rwa [if_pos hvp] at hmm
    · intro hnone
      rw [hnone] at h
      simp at h
  · rw [if_neg h]
    have hnone : db.vehicles.find? (fun v => v.plate = p) = none := by
      cases hf : db.vehicles.find? (fun v => v.plate = p) with
      | none => rfl
      | some v => rw [hf] at h; simp at h
    have hmem : ∀ x ∈ db.vehicles, ¬ (x.plate = p) := by
      intro x hx
      have := List.find?_eq_none.mp hnone x hx
      simpa using this
    refine ⟨?_, ?_, ?_, ?_⟩
    · intro w hw
      rcases List.mem_append.mp hw with hw | hw
      · exact hwf w hw
      · rw [List.mem_singleton] at hw
        subst hw
        exact le_refl _
    · intro v hv hvp
      exact List.mem_append_left _ hv
    · intro v hv hvp
      exact absurd hvp (hmem v hv)
    · intro hnone2
      exact List.mem_append_right _ (List.mem_singleton.mpr rfl)

theorem c7_upsert_props_witness :
    vehiclesWF stW.db ∧
    vehiclesWF (upsert_vehicle stW.db "AAA111" "azul" lunes8) :=
  ⟨by decide,
   (c7_upsert_props stW.db "AAA111" "azul" lunes8 (by decide) (by decide)).1⟩

/-- A loop iteration in which every storage call fails leaves the three
tables exactly as they were: no failed write is ever reflected as a
committed row, and the iteration still completes normally. -/
theorem stepF_all_faults_db (reglas : RuleFn) (st : CamState) (ev : Event) :
    (liveCameraStepF reglas ⟨false, true, true, true⟩ st ev).db = st.db := by
  unfold liveCameraStepF
  repeat' split
  all_goals try rfl
  all_goals simp_all
  all_goals split <;> rfl

/-- C8: the raw ledger appends surface storage errors to their caller (an
error outcome, never a silent success), a success outcome always carries
the committed row, and the camera loop survives failing writes — it keeps
consuming events while the failed writes leave no trace in the tables. -/
theorem c8_writes_surface_errors :
    (∀ (db : DB) (r : DetectionRow),
        insert_detection_e true db r = .error .storage) ∧
    (∀ (db : DB) (r : ViolationRow),
        insert_violation_e true db r = .error .storage) ∧
    (∀ (db db2 : DB) (r : DetectionRow),
        insert_detection_e false db r = .ok db2 →
        db2.detections = db.detections ++ [r]) ∧
    (∀ (db db2 : DB) (r : ViolationRow),
        insert_violation_e false db r = .ok db2 →
        db2.violations = db.violations ++ [r]) ∧
    (∀ (reglas : RuleFn) (st : CamState) (evs : List Event),
        (liveCameraRunF reglas ⟨false, true, true, true⟩ st evs).db
          = st.db) := by
  refine ⟨fun db r => rfl, fun db r => rfl, ?_, ?_, ?_⟩
  · intro db db2 r h
    cases h
    rfl
  · intro db db2 r h
    cases h
    rfl
  · intro reglas st evs
    induction evs generalizing st with
    | nil => rfl
    | cons e es ih =>
      have hrun : liveCameraRunF reglas ⟨false, true, true, true⟩ st (e :: es)
          = liveCameraRunF reglas ⟨false, true, true, true⟩
              (liveCameraStepF reglas ⟨false, true, true, true⟩ st e) es :=
        rfl
      rw [hrun, ih, stepF_all_faults_db]

theorem c8_writes_surface_errors_witness :
    insert_detection_e true DB.empty dRowW = .error .storage ∧
    (insert_detection DB.empty dRowW).detections
        = DB.empty.detections ++ [dRowW] ∧
    (liveCameraRunF realReglas ⟨false, true, true, true⟩ stW [evW1, evW2]).db
        = stW.db :=
  ⟨c8_writes_surface_errors.1 DB.empty dRowW,
   c8_writes_surface_errors.2.2.1 DB.empty (insert_detection DB.empty dRowW)
     dRowW rfl,
   c8_writes_surface_errors.2.2.2.2 realReglas stW [evW1, evW2]⟩

theorem covered_insert_detection (db : DB) (r : DetectionRow)
    (h : violationsCovered db) :
    violationsCovered (insert_detection db r) := by
  intro v hv
  rw [insert_detection_violations] at hv
  obtain ⟨d, hd, hprops⟩ := h v hv
  refine ⟨d, ?_, hprops⟩
  rw [insert_detection_detections]
  exact List.mem_append_left _ hd

theorem covered_upsert_vehicle (db : DB) (p c : String) (t : FechaHora)
    (h : violationsCovered db) :
    violationsCovered (upsert_vehicle db p c t) := by
  intro v hv
  rw [upsert_vehicle_violations] at hv
  obtain ⟨d, hd, hprops⟩ := h v hv
  refine ⟨d, ?_, hprops⟩
  rw [upsert_vehicle_detections]
  exact hd

/-- One loop iteration preserves the violation/detection pairing. -/
theorem covered_step (reglas : RuleFn) (st : CamState) (ev : Event)
    (h : violationsCovered st.db) :
    violationsCovered (liveCameraStep reglas st ev).db := by
  by_cases hreg : ((get_plate_status st.db ev.plate).first_seen).isSome = true
  · cases hr : reglas ev with
    | error e =>
      rw [step_known_error reglas st ev e hreg hr]
      exact covered_insert_detection _ _ (covered_upsert_vehicle _ _ _ _ h)
    | ok res =>
      obtain ⟨okf, m⟩ := res
      cases okf with
      | true =>
        rw [step_known_allowed reglas st ev m hreg hr]
        exact covered_insert_detection _ _ (covered_upsert_vehicle _ _ _ _ h)
      | false =>
        by_cases hperm : cooldownPermits st.cooldown ev.plate ev.ts = true
        · rw [step_known_restricted_permit reglas st ev m hreg hr hperm]
          intro v hv
          rw [insert_detection_violations, insert_violation_violations,
            upsert_vehicle_violations] at hv
          rw [insert_detection_detections, insert_violation_detections,
            upsert_vehicle_detections]
          rcases List.mem_append.mp hv with hv | hv
          · obtain ⟨d, hd, hprops⟩ := h v hv
            exact ⟨d, List.mem_append_left _ hd, hprops⟩
          · rw [List.mem_singleton] at hv
            subst hv
            exact ⟨_, List.mem_append_right _ (List.mem_singleton.mpr rfl),
              rfl, rfl, rfl⟩
        · have hperm2 : cooldownPermits st.cooldown ev.plate ev.ts = false := by
            revert hperm
            cases cooldownPermits st.cooldown ev.plate ev.ts <;> simp
          rw [step_known_restricted_suppress reglas st ev m hreg hr hperm2]
          exact covered_insert_detection _ _ (covered_upsert_vehicle _ _ _ _ h)
  · have hnone : st.db.vehicles.find? (fun v => v.plate = ev.plate) = none := by
      rw [get_plate_status_first_seen] at hreg
      cases hf : st.db.vehicles.find? (fun v => v.plate = ev.plate) with
      | none => rfl
      | some v => rw [hf] at hreg; simp at hreg
    rw [step_unregistered reglas st ev hnone]
    exact covered_insert_detection _ _ (covered_upsert_vehicle _ _ _ _ h)

theorem covered_run (reglas : RuleFn) (st : CamState) (evs : List Event)
    (h : violationsCovered st.db) :
    violationsCovered (liveCameraRun reglas st evs).db := by
  induction evs generalizing st with
  | nil => exact h
  | cons e es ih => exact ih _ (covered_step reglas st e h)

theorem covered_registrar (demoMode : Bool) (now : FechaHora) (db : DB)
    (plate color : String) (ts : FechaHora) (source bbox : String)
    (photo : Option String) (db2 : DB) (res : Bool × Motivo)
    (h : violationsCovered db)
    (hr : registrar_deteccion_y_multa demoMode now db plate color ts source
        bbox photo = .ok (db2, res)) :
    violationsCovered db2 := by
  unfold registrar_deteccion_y_multa at hr
  dsimp only at hr
  cases hpc : puede_circular_pasto demoMode now (normPlate plate) (some ts) with
  | error e =>
    rw [hpc] at hr
    cases hr
  | ok pr =>
    rw [hpc] at hr
    obtain ⟨puede, detalle⟩ := pr
    dsimp only at hr
    cases puede with
    | true =>
      have hdb : db2 = insert_detection
          (upsert_vehicle db (normPlate plate) color ts)
          { plate := normPlate plate, color := color, timestamp := ts,
            source := source, bbox := bbox, violation := false,
            reason := .regla detalle, photo_path := photo } := by
        injection hr with hr2
        exact (congrArg Prod.fst hr2).symm
      rw [hdb]
      exact covered_insert_detection _ _ (covered_upsert_vehicle _ _ _ _ h)
    | false =>
      have hdb : db2 = insert_violation
          (insert_detection (upsert_vehicle db (normPlate plate) color ts)
            { plate := normPlate plate, color := color, timestamp := ts,
              source := source, bbox := bbox, violation := true,
              reason := .regla detalle, photo_path := photo })
          { plate := normPlate plate, color := color, timestamp := ts,
            reason := .regla detalle, photo_path := photo } := by
        injection hr with hr2
        exact (congrArg Prod.fst hr2).symm
      rw [hdb]
      intro v hv
      rw [insert_violation_violations, insert_detection_violations,
        upsert_vehicle_violations] at hv
      rw [insert_violation_detections, insert_detection_detections,
        upsert_vehicle_detections]
      rcases List.mem_append.mp hv with hv | hv
      · obtain ⟨d, hd, hprops⟩ := h v hv
        exact ⟨d, List.mem_append_left _ hd, hprops⟩
      · rw [List.mem_singleton] at hv
        subst hv
        exact ⟨_, List.mem_append_right _ (List.mem_singleton.mpr rfl),
          rfl, rfl, rfl⟩

/-- C9: starting from a ledger where every ViolationRecord has its matching
violation-flagged DetectionRecord at the same plate and timestamp, the
property is preserved by any camera-loop run (under any rule
configuration) and by every successful `registrar_deteccion_y_multa`
call: a violation row is never persisted without its detection row. -/
theorem c9_violation_has_detection (reglas : RuleFn) (st : CamState)
    (evs : List Event) (h : violationsCovered st.db) :
    violationsCovered (liveCameraRun reglas st evs).db ∧
    (∀ (demoMode : Bool) (now : FechaHora) (db : DB) (plate color : String)
        (ts : FechaHora) (source bbox : String) (photo : Option String)
        (db2 : DB) (res : Bool × Motivo),
      violationsCovered db →
      registrar_deteccion_y_multa demoMode now db plate color ts source bbox
          photo = .ok (db2, res) →
      violationsCovered db2) :=
  ⟨covered_run reglas st evs h,
   fun demoMode now db plate color ts source bbox photo db2 res hc hreg =>
     covered_registrar demoMode now db plate color ts source bbox photo
       db2 res hc hreg⟩

theorem c9_violation_has_detection_witness :
    violationsCovered stW.db ∧
    violationsCovered (liveCameraRun realReglas stW [evW1, evW2]).db :=
  ⟨by decide,
   (c9_violation_has_detection realReglas stW [evW1, evW2] (by decide)).1⟩

end PicoPlaca
